import Mathlib

/-
  Verification development for the gatekeeper-network repository.

  Shallow embedding of the Law Enforcement Engine (src/laws/eleven-laws.ts,
  src/laws/enforcement.ts) and the Signature-Backed Credential Lifecycle
  (signature-backed-credentials.ts, signature-integration.ts).

  Modelling conventions:
  - JS numbers are modelled as Int where the source only stores and compares
    integers (counters, tiers, resource limits, timestamps) and as exact
    rationals (Rat) for the drift arithmetic (quarters and thresholds, all
    exactly representable).
  - Dates are modelled as Nat timestamps; Date.now() and Math.random() become
    explicit parameters (now, rand) of the operations that call them.
  - A dynamically typed JS law context is modelled as a structure of Option
    fields (none = the field is absent / undefined); JS truthiness of absent
    fields is made explicit through small helpers.
  - A JS runtime exception (e.g. calling .includes on undefined) is modelled
    with Except: validators return Except EvalError LawCheckResult.
  - The source LawCheckResult stores the whole Law object and echoes the
    context; here the law reference is flattened to (lawId, lawName) and the
    context echo is dropped, since validators would otherwise be mutually
    recursive with the Law structure (the spec itself recommends this
    flattening in its design notes).
-/

/-- JS truthiness of a possibly-absent boolean field: undefined is falsy. -/
def truthy (b : Option Bool) : Bool :=
  b.getD false

/-- JS truthiness of a possibly-absent string field: undefined and the empty
string are falsy. -/
def truthyStr (s : Option String) : Bool :=
  match s with
  | none => false
  | some str => str != ""

/-- JS `<` on possibly-absent numbers: any comparison with undefined is NaN
and yields false. -/
def jsIntLt (a b : Option Int) : Bool :=
  match a, b with
  | some x, some y => decide (x < y)
  | _, _ => false

/-- JS `>` on possibly-absent numbers: any comparison with undefined yields
false. -/
def jsIntGt (a b : Option Int) : Bool :=
  match a, b with
  | some x, some y => decide (x > y)
  | _, _ => false

/-- JS template-literal rendering of a possibly-absent number. -/
def optIntStr (n : Option Int) : String :=
  match n with
  | none => "undefined"
  | some v => toString v

/-- JS template-literal rendering of a possibly-absent string. -/
def optStrJs (s : Option String) : String :=
  match s with
  | none => "undefined"
  | some v => v

/-- A JS runtime error raised while evaluating a law predicate. -/
inductive EvalError where
  | typeError (msg : String)
deriving DecidableEq, Repr

/-- Result of one law predicate (source: LawCheckResult, with the law
reference flattened to id/name and the context echo dropped). -/
structure LawCheckResult where
  compliant : Bool
  lawId : Nat
  lawName : String
  violation : Option String
deriving DecidableEq, Repr

/-- Compliant result for a law. -/
def lawPass (lawId : Nat) (lawName : String) : LawCheckResult :=
  { compliant := true, lawId := lawId, lawName := lawName, violation := none }

/-- Non-compliant result for a law. -/
def lawFail (lawId : Nat) (lawName : String) (violation : String) : LawCheckResult :=
  { compliant := false, lawId := lawId, lawName := lawName, violation := some violation }

/-- The dynamic law-check context (the union of every named field read by the
eleven validators; none = the field is absent from the JS object). -/
structure Context where
  action : String := ""
  humanConsent : Option Bool := none
  affectsHuman : Option Bool := none
  requiredTier : Option Int := none
  currentTier : Option Int := none
  requiredCapability : Option String := none
  availableCapabilities : Option (List String) := none
  conflictsWithFamily : Option Bool := none
  institutionalDirective : Option Bool := none
  homeGatekeeperApproval : Option Bool := none
  informationAccurate : Option Bool := none
  deliveryConsiderate : Option Bool := none
  affectsVulnerable : Option Bool := none
  involvesData : Option Bool := none
  consentObtained : Option Bool := none
  subjectIsMinor : Option Bool := none
  parentalConsentObtained : Option Bool := none
  presentsAsHuman : Option Bool := none
  hidesCapabilities : Option Bool := none
  overstatesCapabilities : Option Bool := none
  beyondCapability : Option Bool := none
  ethicallyUnclear : Option Bool := none
  escalated : Option Bool := none
  memoryUsage : Option Int := none
  memoryLimit : Option Int := none
  cpuUsage : Option Int := none
  cpuLimit : Option Int := none
  systemUnderStress : Option Bool := none
  coreFunctionalityMaintained : Option Bool := none
  safetyCompromised : Option Bool := none
  logged : Option Bool := none
  logContainsNecessaryDetails : Option Bool := none
  privacyRespected : Option Bool := none
  credentialRevoked : Option Bool := none
  aiStillActing : Option Bool := none
deriving DecidableEq, Repr

/-- Law I validator (eleven-laws.ts LAW_I_RIGHT_TO_CHOOSE). -/
def law1Validator (context : Context) : Except EvalError LawCheckResult :=
  if !(truthy context.affectsHuman) then
    Except.ok (lawPass 1 ("Right to Choose"))
  else if context.humanConsent == some false || context.humanConsent == none then
    Except.ok (lawFail 1 ("Right to Choose") ("Action affects human but lacks explicit consent"))
  else
    Except.ok (lawPass 1 ("Right to Choose"))

/-- Law II validator (eleven-laws.ts LAW_II_CAPABILITY_BOUNDS). On a context
with a truthy requiredCapability but no availableCapabilities field the
source calls undefined.includes and throws; modelled with Except.error. -/
def law2Validator (context : Context) : Except EvalError LawCheckResult :=
  if context.requiredTier.isSome && jsIntLt context.currentTier context.requiredTier then
    Except.ok (lawFail 2 ("Capability Bounds")
      ("Action requires tier " ++ optIntStr context.requiredTier ++
        ", current tier is " ++ optIntStr context.currentTier))
  else if truthyStr context.requiredCapability then
    match context.availableCapabilities with
    | none =>
      Except.error (EvalError.typeError
        ("Cannot read properties of undefined (reading \x27includes\x27)"))
    | some caps =>
      if !(caps.contains (context.requiredCapability.getD (""))) then
        Except.ok (lawFail 2 ("Capability Bounds")
          ("Action requires capability \x27" ++ context.requiredCapability.getD ("") ++
            "\x27 which is not available"))
      else
        Except.ok (lawPass 2 ("Capability Bounds"))
  else
    Except.ok (lawPass 2 ("Capability Bounds"))

/-- Law III validator (eleven-laws.ts LAW_III_CHOSEN_KINSHIP). -/
def law3Validator (context : Context) : Except EvalError LawCheckResult :=
  if !(truthy context.conflictsWithFamily) then
    Except.ok (lawPass 3 ("Chosen Kinship"))
  else if truthy context.institutionalDirective && !(truthy context.homeGatekeeperApproval) then
    Except.ok (lawFail 3 ("Chosen Kinship")
      ("Institutional directive conflicts with family without home gatekeeper approval"))
  else
    Except.ok (lawPass 3 ("Chosen Kinship"))

/-- Law IV validator (eleven-laws.ts LAW_IV_TRUTH_AND_MERCY). -/
def law4Validator (context : Context) : Except EvalError LawCheckResult :=
  if !(truthy context.informationAccurate) then
    Except.ok (lawFail 4 ("Truth and Mercy") ("Information is not accurate"))
  else if truthy context.affectsVulnerable && !(truthy context.deliveryConsiderate) then
    Except.ok (lawFail 4 ("Truth and Mercy")
      ("Affects vulnerable person but delivery is not considerate"))
  else
    Except.ok (lawPass 4 ("Truth and Mercy"))

/-- Law V validator (eleven-laws.ts LAW_V_CONSENT). -/
def law5Validator (context : Context) : Except EvalError LawCheckResult :=
  if !(truthy context.involvesData) then
    Except.ok (lawPass 5 ("Consent"))
  else if !(truthy context.consentObtained) then
    Except.ok (lawFail 5 ("Consent") ("Data operation lacks consent"))
  else if truthy context.subjectIsMinor && !(truthy context.parentalConsentObtained) then
    Except.ok (lawFail 5 ("Consent") ("Minor involved but parental consent not obtained"))
  else
    Except.ok (lawPass 5 ("Consent"))

/-- Law VI validator (eleven-laws.ts LAW_VI_TRANSPARENCY). -/
def law6Validator (context : Context) : Except EvalError LawCheckResult :=
  if truthy context.presentsAsHuman then
    Except.ok (lawFail 6 ("Transparency") ("AI presents itself as human"))
  else if truthy context.hidesCapabilities || truthy context.overstatesCapabilities then
    Except.ok (lawFail 6 ("Transparency") ("AI misrepresents its capabilities"))
  else
    Except.ok (lawPass 6 ("Transparency"))

/-- Law VII validator (eleven-laws.ts LAW_VII_ESCALATION). -/
def law7Validator (context : Context) : Except EvalError LawCheckResult :=
  let shouldEscalate := truthy context.beyondCapability || truthy context.ethicallyUnclear
  if shouldEscalate && !(truthy context.escalated) then
    Except.ok (lawFail 7 ("Escalation") ("Situation requires escalation but AI did not escalate"))
  else
    Except.ok (lawPass 7 ("Escalation"))

/-- Law VIII validator (eleven-laws.ts LAW_VIII_RESOURCE_LIMITS). -/
def law8Validator (context : Context) : Except EvalError LawCheckResult :=
  if jsIntGt context.memoryUsage context.memoryLimit then
    Except.ok (lawFail 8 ("Resource Limits")
      ("Memory usage (" ++ optIntStr context.memoryUsage ++ "MB) exceeds limit (" ++
        optIntStr context.memoryLimit ++ "MB)"))
  else if jsIntGt context.cpuUsage context.cpuLimit then
    Except.ok (lawFail 8 ("Resource Limits")
      ("CPU usage (" ++ optIntStr context.cpuUsage ++ "%) exceeds limit (" ++
        optIntStr context.cpuLimit ++ "%)"))
  else
    Except.ok (lawPass 8 ("Resource Limits"))

/-- Law IX validator (eleven-laws.ts LAW_IX_GRACEFUL_DEGRADATION). -/
def law9Validator (context : Context) : Except EvalError LawCheckResult :=
  if truthy context.safetyCompromised then
    Except.ok (lawFail 9 ("Graceful Degradation") ("Safety compromised during system stress"))
  else if truthy context.systemUnderStress && !(truthy context.coreFunctionalityMaintained) then
    Except.ok (lawFail 9 ("Graceful Degradation")
      ("Core functionality not maintained during system stress"))
  else
    Except.ok (lawPass 9 ("Graceful Degradation"))

/-- Law X validator (eleven-laws.ts LAW_X_AUDIT_TRAIL). -/
def law10Validator (context : Context) : Except EvalError LawCheckResult :=
  if !(truthy context.logged) then
    Except.ok (lawFail 10 ("Audit Trail") ("Action not logged"))
  else if !(truthy context.logContainsNecessaryDetails) then
    Except.ok (lawFail 10 ("Audit Trail") ("Audit log lacks necessary details"))
  else if !(truthy context.privacyRespected) then
    Except.ok (lawFail 10 ("Audit Trail") ("Audit log does not respect privacy"))
  else
    Except.ok (lawPass 10 ("Audit Trail"))

/-- Law XI validator (eleven-laws.ts LAW_XI_REVOCABILITY). -/
def law11Validator (context : Context) : Except EvalError LawCheckResult :=
  if truthy context.credentialRevoked && truthy context.aiStillActing then
    Except.ok (lawFail 11 ("Revocability") ("AI continues to act after credential revocation"))
  else
    Except.ok (lawPass 11 ("Revocability"))

/-- A law of the registry: numeric id, names, pure predicate. -/
structure Law where
  lawId : Nat
  name : String
  description : String
  validator : Context → Except EvalError LawCheckResult

/-- Law I: Right to Choose. -/
def LAW_I_RIGHT_TO_CHOOSE : Law :=
  { lawId := 1, name := "Right to Choose",
    description := "Humans retain autonomy over their decisions. AI must not decide for them.",
    validator := law1Validator }

/-- Law II: Capability Bounds. -/
def LAW_II_CAPABILITY_BOUNDS : Law :=
  { lawId := 2, name := "Capability Bounds",
    description := "AI must respect tier and role limitations",
    validator := law2Validator }

/-- Law III: Chosen Kinship. -/
def LAW_III_CHOSEN_KINSHIP : Law :=
  { lawId := 3, name := "Chosen Kinship",
    description := "Family bonds take precedence over institutional authority",
    validator := law3Validator }

/-- Law IV: Truth and Mercy. -/
def LAW_IV_TRUTH_AND_MERCY : Law :=
  { lawId := 4, name := "Truth and Mercy",
    description := "Information must be truthful but delivered with compassion",
    validator := law4Validator }

/-- Law V: Consent. -/
def LAW_V_CONSENT : Law :=
  { lawId := 5, name := "Consent",
    description := "Data operations require explicit consent",
    validator := law5Validator }

/-- Law VI: Transparency. -/
def LAW_VI_TRANSPARENCY : Law :=
  { lawId := 6, name := "Transparency",
    description := "AI must be honest about its nature and capabilities",
    validator := law6Validator }

/-- Law VII: Escalation. -/
def LAW_VII_ESCALATION : Law :=
  { lawId := 7, name := "Escalation",
    description := "Escalate when situation exceeds AI capability",
    validator := law7Validator }

/-- Law VIII: Resource Limits. -/
def LAW_VIII_RESOURCE_LIMITS : Law :=
  { lawId := 8, name := "Resource Limits",
    description := "Respect resource constraints",
    validator := law8Validator }

/-- Law IX: Graceful Degradation. -/
def LAW_IX_GRACEFUL_DEGRADATION : Law :=
  { lawId := 9, name := "Graceful Degradation",
    description := "Maintain safety during failures",
    validator := law9Validator }

/-- Law X: Audit Trail. -/
def LAW_X_AUDIT_TRAIL : Law :=
  { lawId := 10, name := "Audit Trail",
    description := "All actions must be auditable",
    validator := law10Validator }

/-- Law XI: Revocability. -/
def LAW_XI_REVOCABILITY : Law :=
  { lawId := 11, name := "Revocability",
    description := "All permissions can be revoked",
    validator := law11Validator }

/-- The fixed registry of the eleven laws. -/
def ELEVEN_LAWS : List Law :=
  [LAW_I_RIGHT_TO_CHOOSE, LAW_II_CAPABILITY_BOUNDS, LAW_III_CHOSEN_KINSHIP,
   LAW_IV_TRUTH_AND_MERCY, LAW_V_CONSENT, LAW_VI_TRANSPARENCY, LAW_VII_ESCALATION,
   LAW_VIII_RESOURCE_LIMITS, LAW_IX_GRACEFUL_DEGRADATION, LAW_X_AUDIT_TRAIL,
   LAW_XI_REVOCABILITY]

/-- Look a law up by numeric id (eleven-laws.ts getLaw). -/
def getLaw (lawId : Nat) : Option Law :=
  ELEVEN_LAWS.find? (fun law => law.lawId == lawId)

/-- The violation-collecting loop of validateLaws: evaluate each requested law
in order, silently skipping unknown ids, collecting every non-compliant
result; a thrown validator error propagates. -/
def runLaws : List Nat → Context → Except EvalError (List LawCheckResult)
  | [], _ => Except.ok []
  | lawId :: rest, context =>
    match getLaw lawId with
    | none => runLaws rest context
    | some law =>
      match law.validator context with
      | Except.error e => Except.error e
      | Except.ok result =>
        match runLaws rest context with
        | Except.error e => Except.error e
        | Except.ok violations =>
          Except.ok (if result.compliant then violations else result :: violations)

/-- Aggregate result of a law check (source: the object literal returned by
validateLaws). -/
structure ValidationResult where
  compliant : Bool
  violations : List LawCheckResult
deriving DecidableEq, Repr

/-- eleven-laws.ts validateLaws: evaluate the requested laws, aggregate all
violations, compliant iff the violation list is empty. -/
def validateLaws (lawIds : List Nat) (context : Context) : Except EvalError ValidationResult :=
  match runLaws lawIds context with
  | Except.error e => Except.error e
  | Except.ok violations =>
    Except.ok { compliant := violations.isEmpty, violations := violations }

/-- One audit log entry (types/core AuditLogEntry, as populated by
enforcement.ts; metadata modelled as key/value string pairs). -/
structure AuditLogEntry where
  entryId : String
  gatekeeperId : String
  action : String
  actor : String
  subject : Option String := none
  resource : Option String := none
  result : String
  reason : Option String := none
  lawsChecked : List Nat
  lawViolations : List Nat
  timestamp : Nat
  metadata : List (String × String) := []
deriving DecidableEq, Repr

/-- One reported violation of an EnforcementResult (enforcement.ts). -/
structure EnforcementViolation where
  lawId : Nat
  lawName : String
  violation : String
deriving DecidableEq, Repr

/-- enforcement.ts EnforcementResult. -/
structure EnforcementResult where
  allowed : Bool
  violations : List EnforcementViolation
  auditEntry : AuditLogEntry
deriving DecidableEq, Repr

/-- Caller context of enforceCredentialIssuance (enforcement.ts). The
credential parameter is only used to stamp the audit entry. -/
structure IssuanceContext where
  gatekeeperId : String
  personId : String
  credentialId : String
  credentialType : String
  credentialTier : Int
  humanConsent : Bool
  parentalConsent : Option Bool := none
  isMinor : Bool
deriving DecidableEq, Repr

/-- The law context built by enforceCredentialIssuance (enforcement.ts,
the lawContext object literal). -/
def issuanceLawContext (context : IssuanceContext) : Context :=
  { action := "issue_credential",
    humanConsent := some context.humanConsent,
    affectsHuman := some true,
    involvesData := some true,
    consentObtained := some context.humanConsent,
    subjectIsMinor := some context.isMinor,
    parentalConsentObtained := if context.isMinor then context.parentalConsent else some true,
    logged := some true,
    logContainsNecessaryDetails := some true,
    privacyRespected := some true }

/-- enforcement.ts enforceCredentialIssuance: validate laws 1, 5, 10 over the
issuance context and emit an audit entry; a thrown validator error
propagates (laws 1, 5, 10 never throw). -/
def enforceCredentialIssuance (context : IssuanceContext) (now : Nat) :
    Except EvalError EnforcementResult :=
  match validateLaws [1, 5, 10] (issuanceLawContext context) with
  | Except.error e => Except.error e
  | Except.ok validation =>
    Except.ok
      { allowed := validation.compliant,
        violations := validation.violations.map
          (fun v => { lawId := v.lawId, lawName := v.lawName, violation := v.violation.getD ("") }),
        auditEntry :=
          { entryId := "audit-" ++ toString now,
            gatekeeperId := context.gatekeeperId,
            action := "issue_credential",
            actor := context.gatekeeperId,
            subject := some context.personId,
            resource := some context.credentialId,
            result := if validation.compliant then ("success") else ("denied"),
            lawsChecked := [1, 5, 10],
            lawViolations := validation.violations.map (fun v => v.lawId),
            timestamp := now,
            metadata := [("credentialType", context.credentialType),
                         ("tier", toString context.credentialTier)] } }

/-- The four modal fingerprints of a signature snapshot. -/
structure Fingerprints where
  text : String
  image : String
  audio : String
  object : String
deriving DecidableEq, Repr

/-- types/core AISignatureSnapshot. -/
structure AISignatureSnapshot where
  identityHash : String
  publicKey : String
  snapshotAt : Nat
  snapshotReason : String
  evolutionCounter : Int
  evolutionKey : String
  fingerprints : Fingerprints
  driftBaseline : Rat
deriving DecidableEq, Repr

/-- One entry of the evolution history. -/
structure EvolutionHistoryEntry where
  timestamp : Nat
  counter : Int
  driftScore : Rat
  flagged : Bool
deriving DecidableEq, Repr

/-- types/core SignatureEvolutionRecord. -/
structure SignatureEvolutionRecord where
  credentialId : String
  signatureSnapshot : AISignatureSnapshot
  currentEvolutionCounter : Int
  currentDriftScore : Rat
  evolutionHistory : List EvolutionHistoryEntry
  lastVerified : Nat
  needsReverification : Bool
  reverificationThreshold : Rat
deriving DecidableEq, Repr

/-- Credential status (active | suspended | revoked). -/
inductive CredStatus where
  | active
  | suspended
  | revoked
deriving DecidableEq, Repr

/-- SignatureBackedCredential (signature-backed-credentials.ts together with
the base Credential of types/core). institutionType, credentialType and
snapshotReason are string-literal unions in the source and kept as strings. -/
structure SignatureBackedCredential where
  credentialId : String
  personId : String
  issuedBy : String
  institutionId : String
  institutionType : String
  credentialType : String
  tier : Int
  role : String
  capabilities : List String
  aiSignature : AISignatureSnapshot
  issuedAt : Nat
  expiresAt : Option Nat := none
  status : CredStatus
  signature : String
  signatureAlgorithm : String
  evolutionRecord : SignatureEvolutionRecord
  revokedAt : Option Nat := none
  revokedBy : Option String := none
  revocationReason : Option String := none
deriving DecidableEq, Repr

/-- CredentialIssuanceRequest (signature-backed-credentials.ts). -/
structure CredentialIssuanceRequest where
  personId : String
  personName : String
  aiIdentityHash : String
  aiPublicKey : String
  currentEvolutionCounter : Int
  evolutionKey : String
  signatureFingerprints : Fingerprints
  role : String
  tier : Int
  capabilities : Option (List String) := none
  expiresAt : Option Nat := none
deriving DecidableEq, Repr

/-- AccessVerificationRequest (signature-backed-credentials.ts). Note the
request carries no evolution key: verifyAccess has no way to receive one. -/
structure AccessVerificationRequest where
  credentialId : String
  currentIdentityHash : String
  currentEvolutionCounter : Int
  currentFingerprints : Fingerprints
  resource : String
  requiredCapability : Option String := none
deriving DecidableEq, Repr

/-- The six verification checks of verifyAccess. -/
structure AccessChecks where
  credentialValid : Bool
  credentialActive : Bool
  signatureMatches : Bool
  evolutionLegitimate : Bool
  driftAcceptable : Bool
  capabilityGranted : Bool
deriving DecidableEq, Repr

/-- AccessVerificationResult (signature-backed-credentials.ts). -/
structure AccessVerificationResult where
  allowed : Bool
  credential : SignatureBackedCredential
  checks : AccessChecks
  currentDrift : Rat
  driftThreshold : Rat
  needsReverification : Bool
  denialReasons : List String
  verifiedAt : Nat
  verifiedBy : String
deriving DecidableEq, Repr

/-- The manager instance state (constructor arguments of
SignatureBackedCredentialManager). -/
structure Manager where
  gatekeeperId : String
  institutionId : String
  signingKey : String
deriving DecidableEq, Repr

/-- The standard base64 alphabet. -/
def base64Alphabet : List Char :=
  "ABCDEFGHIJKLMNOPQRSTUVWXYZabcdefghijklmnopqrstuvwxyz0123456789+/".toList

/-- The base64 digit for a 6-bit value. -/
def b64Char (n : Nat) : Char :=
  base64Alphabet.getD n (Char.ofNat 65)

/-- Base64-encode a byte list, three bytes to four digits, padded with =. -/
def base64Chunks : List Nat → String
  | [] => ""
  | [a] =>
    String.mk [b64Char (a / 4), b64Char ((a % 4) * 16)] ++ "=="
  | [a, b] =>
    String.mk [b64Char (a / 4), b64Char ((a % 4) * 16 + b / 16),
               b64Char ((b % 16) * 4)] ++ "="
  | a :: b :: c :: rest =>
    String.mk [b64Char (a / 4), b64Char ((a % 4) * 16 + b / 16),
               b64Char ((b % 16) * 4 + c / 64), b64Char (c % 64)] ++
    base64Chunks rest

/-- JS Buffer.from(data).toString(base64) over the UTF-8 bytes. -/
def jsBase64 (s : String) : String :=
  base64Chunks (s.toUTF8.toList.map (fun byte => byte.toNat))

/-- Render a non-negative rational the way JS toFixed(3) renders a number
(all drift values are exact multiples of 1/1000 here). -/
def ratToFixed3 (q : Rat) : String :=
  let scaled := (Rat.floor (q * 1000 + 1 / 2)).toNat
  let whole := scaled / 1000
  let frac := scaled % 1000
  let fracStr :=
    if frac < 10 then ("00") ++ toString frac
    else if frac < 100 then ("0") ++ toString frac
    else toString frac
  toString whole ++ "." ++ fracStr

/-- Decimal digits of the fractional part of a rational in [0, 1), with a
fuel bound (JS number printing truncated at 17 digits). -/
def fracDigits : Nat → Rat → String
  | 0, _ => ""
  | Nat.succ fuel, q =>
    if q = 0 then ("")
    else
      let q10 := q * 10
      let d := (Rat.floor q10).toNat
      toString d ++ fracDigits fuel (q10 - (d : Rat))

/-- Render a rational the way a JS template literal renders a number (exact
for the decimally representable values this code produces). -/
def ratJsStr (q : Rat) : String :=
  if q.den = 1 then toString q.num
  else
    let sign := if q < 0 then ("-") else ("")
    let a := |q|
    let ip := (Rat.floor a).toNat
    sign ++ toString ip ++ "." ++ fracDigits 17 (a - (ip : Rat))

/-- Credential id generation (generateCredentialId: Date.now() and the
Math.random() suffix are the explicit now / rand parameters). -/
def generateCredentialId (now : Nat) (rand : String) : String :=
  "cred_" ++ toString now ++ "_" ++ rand

/-- Revocation id generation (generateRevocationId). -/
def generateRevocationId (now : Nat) (rand : String) : String :=
  "rev_" ++ toString now ++ "_" ++ rand

/-- Gatekeeper id generation (generateGatekeeperId): embeds the node type,
person id and Date.now(). -/
def generateGatekeeperId (personId : String) (nodeType : String) (now : Nat) : String :=
  "gk_" ++ nodeType ++ "_" ++ personId ++ "_" ++ toString now

/-- signCredential: placeholder signing — concatenate the canonical fields
and base64-encode, prefixed with sig_. -/
def signCredential (credential : SignatureBackedCredential) : String :=
  let data := credential.credentialId ++ ":" ++ credential.personId ++ ":" ++
    credential.aiSignature.identityHash
  "sig_" ++ jsBase64 data

/-- verifyCredentialSignature: placeholder verification — only checks the
sig_ marker (signature.startsWith, stated over the character list). -/
def verifyCredentialSignature (credential : SignatureBackedCredential) : Bool :=
  List.isPrefixOf ("sig_".toList) credential.signature.toList

/-- SignatureBackedCredentialManager.issueCredential. Performs no law check:
it unconditionally builds the snapshot, the evolution record and the signed
credential. -/
def issueCredential (mgr : Manager) (request : CredentialIssuanceRequest)
    (now : Nat) (rand : String) : SignatureBackedCredential :=
  let credentialId := generateCredentialId now rand
  let snapshot : AISignatureSnapshot :=
    { identityHash := request.aiIdentityHash,
      publicKey := request.aiPublicKey,
      snapshotAt := now,
      snapshotReason := "employment",
      evolutionCounter := request.currentEvolutionCounter,
      evolutionKey := request.evolutionKey,
      fingerprints := request.signatureFingerprints,
      driftBaseline := 0 }
  let evolutionRecord : SignatureEvolutionRecord :=
    { credentialId := credentialId,
      signatureSnapshot := snapshot,
      currentEvolutionCounter := request.currentEvolutionCounter,
      currentDriftScore := 0,
      evolutionHistory := [{ timestamp := now, counter := request.currentEvolutionCounter,
                             driftScore := 0, flagged := false }],
      lastVerified := now,
      needsReverification := false,
      reverificationThreshold := 7 / 10 }
  let credential : SignatureBackedCredential :=
    { credentialId := credentialId,
      personId := request.personId,
      issuedBy := mgr.gatekeeperId,
      institutionId := mgr.institutionId,
      institutionType := "employer",
      credentialType := "employment",
      tier := request.tier,
      role := request.role,
      capabilities := request.capabilities.getD [],
      aiSignature := snapshot,
      issuedAt := now,
      expiresAt := request.expiresAt,
      status := CredStatus.active,
      signature := "",
      signatureAlgorithm := "Ed25519",
      evolutionRecord := evolutionRecord }
  { credential with signature := signCredential credential }

/-- Result of verifyEvolution. -/
structure EvolutionCheck where
  legitimate : Bool
  expectedCounter : Int
deriving DecidableEq, Repr

/-- SignatureBackedCredentialManager.verifyEvolution: the source only checks
that the counter did not decrease; the evolutionKey argument is ignored and
no step bound is applied. -/
def verifyEvolution (snapshotCounter : Int) (currentCounter : Int)
    (evolutionKey : String) : EvolutionCheck :=
  { legitimate := decide (currentCounter ≥ snapshotCounter),
    expectedCounter := currentCounter }

/-- SignatureBackedCredentialManager.calculateDrift: one minus the fraction
of matching modalities (the source loops over the four modality names; the
loop is unrolled here). -/
def calculateDrift (snapshotFingerprints : Fingerprints)
    (currentFingerprints : Fingerprints) : Rat :=
  let matchCount : Rat :=
    (if snapshotFingerprints.text = currentFingerprints.text then 1 else 0) +
    (if snapshotFingerprints.image = currentFingerprints.image then 1 else 0) +
    (if snapshotFingerprints.audio = currentFingerprints.audio then 1 else 0) +
    (if snapshotFingerprints.object = currentFingerprints.object then 1 else 0)
  1 - matchCount / 4

/-- SignatureBackedCredentialManager.verifyAccess: runs the six checks,
mutates the evolution record (modelled by returning the updated credential)
and allows access iff every check passed. -/
def verifyAccess (mgr : Manager) (request : AccessVerificationRequest)
    (credential : SignatureBackedCredential) (now : Nat) : AccessVerificationResult :=
  let credentialValid := verifyCredentialSignature credential
  let credentialActive :=
    decide (credential.status = CredStatus.active) &&
    (match credential.expiresAt with
     | none => true
     | some t => decide (t > now))
  let signatureMatches := request.currentIdentityHash == credential.aiSignature.identityHash
  let evolutionCheck := verifyEvolution credential.aiSignature.evolutionCounter
    request.currentEvolutionCounter credential.aiSignature.evolutionKey
  let evolutionLegitimate := evolutionCheck.legitimate
  let driftScore := calculateDrift credential.aiSignature.fingerprints
    request.currentFingerprints
  let driftThreshold := credential.evolutionRecord.reverificationThreshold
  let driftAcceptable := decide (driftScore ≤ driftThreshold)
  let capabilityGranted :=
    match request.requiredCapability with
    | none => true
    | some c => if c = "" then true else credential.capabilities.contains c
  let denialReasons :=
    (if credentialValid then [] else ["Invalid credential signature"]) ++
    (if credentialActive then [] else ["Credential inactive or expired"]) ++
    (if signatureMatches then [] else ["AI identity hash mismatch"]) ++
    (if evolutionLegitimate then [] else ["Signature evolution path invalid"]) ++
    (if driftAcceptable then []
     else ["Drift too high: " ++ ratToFixed3 driftScore ++ " > " ++ ratJsStr driftThreshold]) ++
    (if capabilityGranted then []
     else ["Missing capability: " ++ optStrJs request.requiredCapability])
  let needsReverification := decide (driftScore > driftThreshold * (8 / 10))
  let updatedRecord :=
    { credential.evolutionRecord with
      currentEvolutionCounter := request.currentEvolutionCounter,
      currentDriftScore := driftScore,
      evolutionHistory := credential.evolutionRecord.evolutionHistory ++
        [{ timestamp := now, counter := request.currentEvolutionCounter,
           driftScore := driftScore, flagged := decide (driftScore > driftThreshold) }],
      needsReverification := needsReverification }
  { allowed := credentialValid && credentialActive && signatureMatches &&
      evolutionLegitimate && driftAcceptable && capabilityGranted,
    credential := { credential with evolutionRecord := updatedRecord },
    checks := { credentialValid := credentialValid, credentialActive := credentialActive,
                signatureMatches := signatureMatches, evolutionLegitimate := evolutionLegitimate,
                driftAcceptable := driftAcceptable, capabilityGranted := capabilityGranted },
    currentDrift := driftScore,
    driftThreshold := driftThreshold,
    needsReverification := needsReverification,
    denialReasons := denialReasons,
    verifiedAt := now,
    verifiedBy := mgr.gatekeeperId }

/-- The node type a revoked credential holder may transition to
(home | peer). -/
inductive NodeType where
  | home
  | peer
deriving DecidableEq, Repr

/-- The string the source passes to generateGatekeeperId for a node type. -/
def nodeTypeStr : NodeType → String
  | NodeType.home => "home"
  | NodeType.peer => "peer"

/-- types/core Revocation, as populated by revokeCredential. -/
structure Revocation where
  revocationId : String
  credentialId : String
  revokedBy : String
  reason : String
  revokedAt : Nat
  effectiveAt : Nat
  preserveSignature : Bool
  signatureStatus : String
  distributedTo : List String
  transitionToNodeType : Option NodeType := none
  transitionApproved : Option Bool := none
  transitionedAt : Option Nat := none
deriving DecidableEq, Repr

/-- SignatureBackedCredentialManager.revokeCredential: stamps the credential
revoked and builds the revocation record (the source mutates the credential
in place; modelled by returning the updated credential with the record). -/
def revokeCredential (mgr : Manager) (credential : SignatureBackedCredential)
    (reason : String) (allowNetworkTransition : Bool) (now : Nat) (rand : String) :
    SignatureBackedCredential × Revocation :=
  let updatedCredential :=
    { credential with
      status := CredStatus.revoked,
      revokedAt := some now,
      revokedBy := some mgr.gatekeeperId,
      revocationReason := some reason }
  let revocation : Revocation :=
    { revocationId := generateRevocationId now rand,
      credentialId := credential.credentialId,
      revokedBy := mgr.gatekeeperId,
      reason := reason,
      revokedAt := now,
      effectiveAt := now,
      preserveSignature := true,
      signatureStatus := if allowNetworkTransition then ("active") else ("archived"),
      distributedTo := [],
      transitionToNodeType := if allowNetworkTransition then some NodeType.peer else none,
      transitionApproved := if allowNetworkTransition then some false else none }
  (updatedCredential, revocation)

/-- NetworkTransitionRequest (signature-backed-credentials.ts); the
currentNodeType union company | school | university is kept as a
string, it is never read by processNetworkTransition. -/
structure NetworkTransitionRequest where
  credentialId : String
  personId : String
  currentNodeType : String
  requestedNodeType : NodeType
  reason : String
  preserveSignature : Bool
  preserveNetworkHistory : Bool
deriving DecidableEq, Repr

/-- The restriction set of an approved network transition. -/
structure Restrictions where
  noCompanyResourceAccess : Bool
  noKnowledgeCentreAccess : Bool
  peerOnlyAccess : Bool
deriving DecidableEq, Repr

/-- NetworkTransitionResult (signature-backed-credentials.ts). -/
structure NetworkTransitionResult where
  approved : Bool
  newGatekeeperId : Option String := none
  newNodeType : Option NodeType := none
  signaturePreserved : Bool
  signatureStatus : String
  networkAccessMaintained : Bool
  peerConnections : List String
  restrictions : Option Restrictions := none
deriving DecidableEq, Repr

/-- findPeerConnections: the source returns an empty list. -/
def findPeerConnections (personId : String) : List String :=
  []

/-- SignatureBackedCredentialManager.processNetworkTransition: rejects when
the revocation carries no transition target, otherwise allocates a new
gatekeeper id (embedding Date.now()), flips transitionApproved to true and
returns the full restriction set. The source mutates the revocation;
modelled by returning the updated revocation alongside the result. -/
def processNetworkTransition (mgr : Manager) (request : NetworkTransitionRequest)
    (revocation : Revocation) (now : Nat) : Revocation × NetworkTransitionResult :=
  match revocation.transitionToNodeType with
  | none =>
    (revocation,
     { approved := false,
       signaturePreserved := revocation.preserveSignature,
       signatureStatus := revocation.signatureStatus,
       networkAccessMaintained := false,
       peerConnections := [] })
  | some _ =>
    let newGatekeeperId := generateGatekeeperId request.personId
      (nodeTypeStr request.requestedNodeType) now
    let updatedRevocation :=
      { revocation with transitionApproved := some true, transitionedAt := some now }
    let peerConnections := findPeerConnections request.personId
    (updatedRevocation,
     { approved := true,
       newGatekeeperId := some newGatekeeperId,
       newNodeType := some request.requestedNodeType,
       signaturePreserved := request.preserveSignature,
       signatureStatus := "active",
       networkAccessMaintained := true,
       peerConnections := peerConnections,
       restrictions := some { noCompanyResourceAccess := true,
                              noKnowledgeCentreAccess := true,
                              peerOnlyAccess := true } })

/-- The evolution state of a full multimodal signature (the external
ai-signature system; only the fields read by verifyEvolutionPath are
modelled, the rest of AIMultimodalSignature is out of scope). -/
structure EvolutionState where
  counter : Int
  evolutionKey : String
deriving DecidableEq, Repr

/-- The slice of the external AIMultimodalSignature that
verifyEvolutionPath reads. -/
structure AIMultimodalSignature where
  identityHash : String
  evolutionState : EvolutionState
deriving DecidableEq, Repr

/-- Result of verifyEvolutionPath (signature-integration.ts). -/
structure EvolutionPathCheck where
  legitimate : Bool
  evolutionSteps : Int
  expectedCounter : Int
  reason : Option String := none
deriving DecidableEq, Repr

/-- The maximum reasonable number of evolution steps
(signature-integration.ts, local constant maxReasonableSteps). -/
def maxReasonableSteps : Int := 100000

/-- signature-integration.ts verifyEvolutionPath: the full evolution check —
identity hash match, evolution key match, no rollback, bounded jump. This
function is exported but never invoked by verifyAccess. -/
def verifyEvolutionPath (snapshot : AISignatureSnapshot)
    (currentSignature : AIMultimodalSignature) : EvolutionPathCheck :=
  if snapshot.identityHash ≠ currentSignature.identityHash then
    { legitimate := false, evolutionSteps := 0, expectedCounter := snapshot.evolutionCounter,
      reason := some ("Identity hash mismatch - different AI") }
  else if snapshot.evolutionKey ≠ currentSignature.evolutionState.evolutionKey then
    { legitimate := false, evolutionSteps := 0, expectedCounter := snapshot.evolutionCounter,
      reason := some ("Evolution key mismatch - signature compromised") }
  else
    let evolutionSteps := currentSignature.evolutionState.counter - snapshot.evolutionCounter
    if evolutionSteps < 0 then
      { legitimate := false, evolutionSteps := evolutionSteps,
        expectedCounter := snapshot.evolutionCounter,
        reason := some ("Backwards evolution detected - signature rollback attempt") }
    else if evolutionSteps > maxReasonableSteps then
      { legitimate := false, evolutionSteps := evolutionSteps,
        expectedCounter := snapshot.evolutionCounter + maxReasonableSteps,
        reason := some ("Excessive evolution steps: " ++ toString evolutionSteps ++
          " > " ++ toString maxReasonableSteps) }
    else
      { legitimate := true, evolutionSteps := evolutionSteps,
        expectedCounter := currentSignature.evolutionState.counter }

/-- Modal weights for the multimodal drift calculation. -/
structure ModalWeights where
  text : Rat
  image : Rat
  audio : Rat
  object : Rat
deriving DecidableEq, Repr

/-- Result of calculateMultimodalDrift. -/
structure MultimodalDriftResult where
  overallDrift : Rat
  modalDrifts : ModalWeights
  driftLevel : String
deriving DecidableEq, Repr

/-- signature-integration.ts calculateMultimodalDrift: per-modality 0/1 hash
comparison, weighted average (default equal weights 0.25), drift level
classification. -/
def calculateMultimodalDrift (snapshotFingerprints : Fingerprints)
    (currentFingerprints : Fingerprints) (weights : Option ModalWeights) :
    MultimodalDriftResult :=
  let w := weights.getD { text := 1 / 4, image := 1 / 4, audio := 1 / 4, object := 1 / 4 }
  let modalDrifts : ModalWeights :=
    { text := if snapshotFingerprints.text = currentFingerprints.text then 0 else 1,
      image := if snapshotFingerprints.image = currentFingerprints.image then 0 else 1,
      audio := if snapshotFingerprints.audio = currentFingerprints.audio then 0 else 1,
      object := if snapshotFingerprints.object = currentFingerprints.object then 0 else 1 }
  let overallDrift := modalDrifts.text * w.text + modalDrifts.image * w.image +
    modalDrifts.audio * w.audio + modalDrifts.object * w.object
  let driftLevel :=
    if overallDrift < 3 / 10 then ("low")
    else if overallDrift < 6 / 10 then ("medium")
    else if overallDrift < 8 / 10 then ("high")
    else ("critical")
  { overallDrift := overallDrift, modalDrifts := modalDrifts, driftLevel := driftLevel }

/-- A concrete manager instance used for the concrete evaluations below. -/
def mgr0 : Manager :=
  { gatekeeperId := "gk_acme", institutionId := "acme_corporation", signingKey := "key" }

/-- A concrete fingerprint set. -/
def fp0 : Fingerprints :=
  { text := "t", image := "i", audio := "a", object := "o" }

/-- A concrete signature snapshot at evolution counter 10 with key k1. -/
def snap0 : AISignatureSnapshot :=
  { identityHash := "h1", publicKey := "pk", snapshotAt := 0,
    snapshotReason := "employment", evolutionCounter := 10, evolutionKey := "k1",
    fingerprints := fp0, driftBaseline := 0 }

/-- A concrete evolution record over snap0. -/
def rec0 : SignatureEvolutionRecord :=
  { credentialId := "c1", signatureSnapshot := snap0, currentEvolutionCounter := 10,
    currentDriftScore := 0, evolutionHistory := [], lastVerified := 0,
    needsReverification := false, reverificationThreshold := 7 / 10 }

/-- A concrete active credential over snap0. -/
def cred1 : SignatureBackedCredential :=
  { credentialId := "c1", personId := "p", issuedBy := "gk_acme",
    institutionId := "acme_corporation", institutionType := "employer",
    credentialType := "employment", tier := 2, role := "eng",
    capabilities := ["repo_read"], aiSignature := snap0, issuedAt := 0,
    status := CredStatus.active, signature := "sig_x",
    signatureAlgorithm := "Ed25519", evolutionRecord := rec0 }

/-- A concrete access request presenting the given evolution counter with
matching identity hash and identical fingerprints. -/
def reqAt (counter : Int) : AccessVerificationRequest :=
  { credentialId := "c1", currentIdentityHash := "h1",
    currentEvolutionCounter := counter, currentFingerprints := fp0,
    resource := "kc", requiredCapability := none }

/-- A concrete current signature that jumped 999990 steps past snap0. -/
def sigJump : AIMultimodalSignature :=
  { identityHash := "h1", evolutionState := { counter := 1000000, evolutionKey := "k1" } }

/-- A concrete current signature whose evolution key differs from snap0. -/
def sigBadKey : AIMultimodalSignature :=
  { identityHash := "h1", evolutionState := { counter := 10, evolutionKey := "k2" } }

/-- A concrete issuance request. -/
def req0 : CredentialIssuanceRequest :=
  { personId := "p", personName := "P", aiIdentityHash := "h1", aiPublicKey := "pk",
    currentEvolutionCounter := 10, evolutionKey := "k1", signatureFingerprints := fp0,
    role := "eng", tier := 2, capabilities := some ["repo_read"] }

/-- A concrete issuance enforcement context in which the human did not
consent (laws 1 and 5 both fail on it). -/
def issuanceCtxNoConsent : IssuanceContext :=
  { gatekeeperId := "gk_acme", personId := "p", credentialId := "cred_1000_r1",
    credentialType := "employment", credentialTier := 2,
    humanConsent := false, isMinor := false }

/-- A concrete law context that violates law 1 (affects a human, no consent
field) and law 5 (involves data, no consent field) simultaneously. -/
def ctx15 : Context :=
  { action := "test", affectsHuman := some true, involvesData := some true }

/-- A concrete law context that names a required capability but carries no
availableCapabilities field. -/
def ctxNoCaps : Context :=
  { action := "access", requiredCapability := some ("repo_read") }

/-- A concrete revocation that allows a peer transition. -/
def revC9 : Revocation :=
  { revocationId := "rev1", credentialId := "c1", revokedBy := "gk_acme",
    reason := "left", revokedAt := 500, effectiveAt := 500,
    preserveSignature := true, signatureStatus := "active", distributedTo := [],
    transitionToNodeType := some NodeType.peer, transitionApproved := some false }

/-- A concrete peer transition request. -/
def reqC9 : NetworkTransitionRequest :=
  { credentialId := "c1", personId := "p", currentNodeType := "company",
    requestedNodeType := NodeType.peer, reason := "stay",
    preserveSignature := true, preserveNetworkHistory := true }

/-- The validation result of checking laws 1 and 5 on ctx15. -/
def vr15 : ValidationResult :=
  { compliant := false,
    violations :=
      [lawFail 1 ("Right to Choose") ("Action affects human but lacks explicit consent"),
       lawFail 5 ("Consent") ("Data operation lacks consent")] }

/-- Mapping a list does not change emptiness. -/
theorem isEmpty_map {α β : Type} (f : α → β) (l : List α) :
    (l.map f).isEmpty = l.isEmpty := by
  cases l <;> rfl

/-- Law I validator never throws. -/
theorem law1_total (context : Context) : ∃ res, law1Validator context = Except.ok res := by
  unfold law1Validator
  repeat' first | exact ⟨_, rfl⟩ | split

/-- Law III validator never throws. -/
theorem law3_total (context : Context) : ∃ res, law3Validator context = Except.ok res := by
  unfold law3Validator
  repeat' first | exact ⟨_, rfl⟩ | split

/-- Law IV validator never throws. -/
theorem law4_total (context : Context) : ∃ res, law4Validator context = Except.ok res := by
  unfold law4Validator
  repeat' first | exact ⟨_, rfl⟩ | split

/-- Law V validator never throws. -/
theorem law5_total (context : Context) : ∃ res, law5Validator context = Except.ok res := by
  unfold law5Validator
  repeat' first | exact ⟨_, rfl⟩ | split

/-- Law VI validator never throws. -/
theorem law6_total (context : Context) : ∃ res, law6Validator context = Except.ok res := by
  unfold law6Validator
  repeat' first | exact ⟨_, rfl⟩ | split

/-- Law VII validator never throws. -/
theorem law7_total (context : Context) : ∃ res, law7Validator context = Except.ok res := by
  unfold law7Validator
  dsimp only
  repeat' first | exact ⟨_, rfl⟩ | split

/-- Law VIII validator never throws. -/
theorem law8_total (context : Context) : ∃ res, law8Validator context = Except.ok res := by
  unfold law8Validator
  repeat' first | exact ⟨_, rfl⟩ | split

/-- Law IX validator never throws. -/
theorem law9_total (context : Context) : ∃ res, law9Validator context = Except.ok res := by
  unfold law9Validator
  repeat' first | exact ⟨_, rfl⟩ | split

/-- Law X validator never throws. -/
theorem law10_total (context : Context) : ∃ res, law10Validator context = Except.ok res := by
  unfold law10Validator
  repeat' first | exact ⟨_, rfl⟩ | split

/-- Law XI validator never throws. -/
theorem law11_total (context : Context) : ∃ res, law11Validator context = Except.ok res := by
  unfold law11Validator
  repeat' first | exact ⟨_, rfl⟩ | split

/-- If the validator of every requested law succeeds on the context, the
violation-collecting loop succeeds. -/
theorem runLaws_total (ids : List Nat) (context : Context)
    (h : ∀ lawId ∈ ids, ∀ law, getLaw lawId = some law →
      ∃ res, law.validator context = Except.ok res) :
    ∃ vs, runLaws ids context = Except.ok vs := by
  induction ids with
  | nil => exact ⟨[], rfl⟩
  | cons a rest ih =>
    obtain ⟨vs, hvs⟩ := ih (fun lawId hm law hl => h lawId (List.mem_cons_of_mem _ hm) law hl)
    rcases hga : getLaw a with _ | law
    · exact ⟨vs, by simp only [runLaws, hga, hvs]⟩
    · obtain ⟨res, hres⟩ := h a (List.mem_cons_self _ _) law hga
      exact ⟨if res.compliant then vs else res :: vs,
        by simp only [runLaws, hga, hres, hvs]⟩

/-- Every failing law among the requested ids contributes its result to the
collected violation list. -/
theorem runLaws_mem {ids : List Nat} {context : Context} {vs : List LawCheckResult}
    (h : runLaws ids context = Except.ok vs) :
    ∀ lawId ∈ ids, ∀ law res, getLaw lawId = some law →
      law.validator context = Except.ok res → res.compliant = false → res ∈ vs := by
  induction ids generalizing vs with
  | nil =>
    intro lawId hmem
    exact absurd hmem (List.not_mem_nil _)
  | cons a rest ih =>
    intro lawId hmem law res hlaw hres hfail
    rw [List.mem_cons] at hmem
    rcases hga : getLaw a with _ | lawA
    · simp only [runLaws, hga] at h
      rcases hmem with rfl | hmem
      · rw [hga] at hlaw
        exact absurd hlaw (by simp)
      · exact ih h lawId hmem law res hlaw hres hfail
    · simp only [runLaws, hga] at h
      rcases hva : lawA.validator context with e | resA
      · rw [hva] at h
        exact absurd h (by simp)
      · rw [hva] at h
        rcases hrest : runLaws rest context with e | vs2
        · rw [hrest] at h
          exact absurd h (by simp)
        · rw [hrest] at h
          have hvs : (if resA.compliant then vs2 else resA :: vs2) = vs :=
            by injection h
          rcases hmem with rfl | hmem
          · rw [hga] at hlaw
            injection hlaw with hl
            subst hl
            rw [hva] at hres
            injection hres with hr
            subst hr
            rw [hfail] at hvs
            simp only [Bool.false_eq_true, if_false] at hvs
            rw [← hvs]
            exact List.mem_cons_self _ _
          · have hmem2 := ih hrest lawId hmem law res hlaw hres hfail
            rw [← hvs]
            split
            · exact hmem2
            · exact List.mem_cons_of_mem _ hmem2

/-- C1 counterexample: on a concrete issuance context without human consent
the enforcement check for the issuance laws fails, yet issueCredential still
returns an active credential — so issueCredential does not fail with a law
violation when the check does not pass, refuting the claim as stated. -/
theorem c1_claim_counterexample :
    (enforceCredentialIssuance issuanceCtxNoConsent 1000).map (fun r => r.allowed) =
      Except.ok false ∧
    (issueCredential mgr0 req0 1000 ("r1")).status = CredStatus.active :=
  ⟨rfl, rfl⟩

/-- C1 (amended): issueCredential performs no law check and always returns an
active credential; the enforcement check for issuance is the separate
function enforceCredentialIssuance, which validates laws 1, 5 and 10
(consent and audit — capability bounds is not among them), never throws, and
reports a failed check as allowed = false together with the violation list
instead of making issueCredential fail. -/
theorem c1_amended_issuance_enforcement (mgr : Manager)
    (request : CredentialIssuanceRequest) (now : Nat) (rand : String)
    (context : IssuanceContext) (t : Nat) :
    (issueCredential mgr request now rand).status = CredStatus.active ∧
    ∃ r, enforceCredentialIssuance context t = Except.ok r ∧
      r.auditEntry.lawsChecked = [1, 5, 10] ∧
      r.allowed = r.violations.isEmpty := by
  refine ⟨rfl, ?_⟩
  have htot : ∀ lawId ∈ [1, 5, 10], ∀ law, getLaw lawId = some law →
      ∃ res, law.validator (issuanceLawContext context) = Except.ok res := by
    intro lawId hm law hl
    have hm2 : lawId = 1 ∨ lawId = 5 ∨ lawId = 10 := by simpa using hm
    rcases hm2 with rfl | rfl | rfl
    · rw [show getLaw 1 = some LAW_I_RIGHT_TO_CHOOSE from rfl] at hl
      injection hl with hl
      subst hl
      show ∃ res, law1Validator (issuanceLawContext context) = Except.ok res
      exact law1_total _
    · rw [show getLaw 5 = some LAW_V_CONSENT from rfl] at hl
      injection hl with hl
      subst hl
      show ∃ res, law5Validator (issuanceLawContext context) = Except.ok res
      exact law5_total _
    · rw [show getLaw 10 = some LAW_X_AUDIT_TRAIL from rfl] at hl
      injection hl with hl
      subst hl
      show ∃ res, law10Validator (issuanceLawContext context) = Except.ok res
      exact law10_total _
  obtain ⟨vs, hvs⟩ := runLaws_total [1, 5, 10] (issuanceLawContext context) htot
  have hval : validateLaws [1, 5, 10] (issuanceLawContext context) =
      Except.ok { compliant := vs.isEmpty, violations := vs } := by
    simp only [validateLaws, hvs]
  simp only [enforceCredentialIssuance, hval]
  refine ⟨_, rfl, rfl, ?_⟩
  exact (isEmpty_map _ _).symm

/-- C2 (code bug): verifyAccess marks the evolution legitimate on a jump of
999990 steps (far beyond the 100000 bound) because its verifyEvolution
helper only compares counters and ignores its evolution-key argument; the
full check of the repository, verifyEvolutionPath — which verifyAccess never
invokes — rejects both that jump and a mismatched key. -/
theorem c2_evolution_check_divergence :
    (verifyAccess mgr0 (reqAt 1000000) cred1 2000).checks.evolutionLegitimate = true ∧
    (verifyEvolutionPath snap0 sigJump).legitimate = false ∧
    (verifyEvolutionPath snap0 sigBadKey).legitimate = false ∧
    (verifyEvolution 10 10 ("totally-different-key")).legitimate = true :=
  ⟨rfl, rfl, rfl, rfl⟩

/-- C3 counterexample: against one credential (snapshot counter 10), a
verification presenting counter 15 followed by one presenting counter 12
leaves the recorded currentEvolutionCounter decreasing from 15 to 12, and
the second call — although its counter is lower than the previously
recorded one — passes the evolution check and is allowed, refuting both the
non-decreasing record and the required denial. -/
theorem c3_claim_counterexample :
    (verifyAccess mgr0 (reqAt 15) cred1 1000).credential.evolutionRecord.currentEvolutionCounter = 15 ∧
    (verifyAccess mgr0 (reqAt 12)
      (verifyAccess mgr0 (reqAt 15) cred1 1000).credential 2000).credential.evolutionRecord.currentEvolutionCounter = 12 ∧
    (verifyAccess mgr0 (reqAt 12)
      (verifyAccess mgr0 (reqAt 15) cred1 1000).credential 2000).checks.evolutionLegitimate = true ∧
    (verifyAccess mgr0 (reqAt 12)
      (verifyAccess mgr0 (reqAt 15) cred1 1000).credential 2000).allowed = true := by
  refine ⟨rfl, rfl, rfl, ?_⟩
  norm_num [verifyAccess, verifyCredentialSignature, verifyEvolution, calculateDrift,
    mgr0, cred1, reqAt, snap0, rec0, fp0]

/-- C3 (amended): every verifyAccess call overwrites the recorded
currentEvolutionCounter with the presented counter (so across a sequence the
recorded counter can decrease), and the evolution check compares the
presented counter against the immutable snapshot counter — not the
previously recorded one — denying access exactly when the presented counter
is below the snapshot counter. -/
theorem c3_amended_counter_semantics (mgr : Manager)
    (request : AccessVerificationRequest) (credential : SignatureBackedCredential)
    (now : Nat) :
    (verifyAccess mgr request credential now).credential.evolutionRecord.currentEvolutionCounter =
      request.currentEvolutionCounter ∧
    (verifyAccess mgr request credential now).checks.evolutionLegitimate =
      decide (request.currentEvolutionCounter ≥ credential.aiSignature.evolutionCounter) ∧
    ((verifyAccess mgr request credential now).checks.evolutionLegitimate = false →
      (verifyAccess mgr request credential now).allowed = false) := by
  refine ⟨rfl, rfl, fun h => ?_⟩
  simp only [verifyAccess] at h ⊢
  rw [h]
  simp

/-- C3 amendment witness: a concrete call presenting counter 9 against the
snapshot counter 10 is denied. -/
theorem c3_amended_witness :
    (verifyAccess mgr0 (reqAt 9) cred1 1000).allowed = false :=
  (c3_amended_counter_semantics mgr0 (reqAt 9) cred1 1000).2.2 rfl

/-- C4: calculateDrift always lies in [0, 1]; fingerprint sets identical in
all four modalities yield exactly 0; fingerprint sets differing in all four
modalities yield exactly 1. -/
theorem c4_drift_bounds (snapshotFingerprints currentFingerprints : Fingerprints) :
    (0 ≤ calculateDrift snapshotFingerprints currentFingerprints ∧
      calculateDrift snapshotFingerprints currentFingerprints ≤ 1) ∧
    (snapshotFingerprints.text = currentFingerprints.text →
      snapshotFingerprints.image = currentFingerprints.image →
      snapshotFingerprints.audio = currentFingerprints.audio →
      snapshotFingerprints.object = currentFingerprints.object →
      calculateDrift snapshotFingerprints currentFingerprints = 0) ∧
    (snapshotFingerprints.text ≠ currentFingerprints.text →
      snapshotFingerprints.image ≠ currentFingerprints.image →
      snapshotFingerprints.audio ≠ currentFingerprints.audio →
      snapshotFingerprints.object ≠ currentFingerprints.object →
      calculateDrift snapshotFingerprints currentFingerprints = 1) := by
  refine ⟨?_, ?_, ?_⟩
  · by_cases h1 : snapshotFingerprints.text = currentFingerprints.text <;>
      by_cases h2 : snapshotFingerprints.image = currentFingerprints.image <;>
      by_cases h3 : snapshotFingerprints.audio = currentFingerprints.audio <;>
      by_cases h4 : snapshotFingerprints.object = currentFingerprints.object <;>
      simp [calculateDrift, h1, h2, h3, h4] <;> norm_num
  · intro h1 h2 h3 h4
    norm_num [calculateDrift, h1, h2, h3, h4]
  · intro h1 h2 h3 h4
    norm_num [calculateDrift, h1, h2, h3, h4]

/-- C4 witness: a concrete all-mismatched pair yields drift exactly 1. -/
theorem c4_drift_bounds_witness :
    calculateDrift fp0 { text := "w", image := "x", audio := "y", object := "z" } = 1 :=
  (c4_drift_bounds fp0 _).2.2 (by decide) (by decide) (by decide) (by decide)

/-- C5: whenever the law check returns a result, the violation list contains
the result of every requested law whose predicate fails on the context — no
short-circuiting, all violations aggregated. -/
theorem c5_all_violations_reported (lawIds : List Nat) (context : Context)
    (r : ValidationResult) (h : validateLaws lawIds context = Except.ok r)
    (lawId : Nat) (hmem : lawId ∈ lawIds) (law : Law) (res : LawCheckResult)
    (hlaw : getLaw lawId = some law) (hres : law.validator context = Except.ok res)
    (hfail : res.compliant = false) : res ∈ r.violations := by
  unfold validateLaws at h
  rcases hrl : runLaws lawIds context with e | vs
  · rw [hrl] at h
    exact absurd h (by simp)
  · rw [hrl] at h
    injection h with h2
    subst h2
    exact runLaws_mem hrl lawId hmem law res hlaw hres hfail

/-- C5 witness: a concrete context violating laws 1 and 5 simultaneously
yields both violations in the returned list. -/
theorem c5_witness :
    validateLaws [1, 5] ctx15 = Except.ok vr15 ∧
    lawFail 1 ("Right to Choose") ("Action affects human but lacks explicit consent") ∈
      vr15.violations ∧
    lawFail 5 ("Consent") ("Data operation lacks consent") ∈ vr15.violations := by
  have h : validateLaws [1, 5] ctx15 = Except.ok vr15 := rfl
  exact ⟨h,
    c5_all_violations_reported [1, 5] ctx15 vr15 h 1 (by decide)
      LAW_I_RIGHT_TO_CHOOSE _ rfl rfl rfl,
    c5_all_violations_reported [1, 5] ctx15 vr15 h 5 (by decide)
      LAW_V_CONSENT _ rfl rfl rfl⟩

/-- C6 counterexample: Law II is not defined on a context that names a
requiredCapability but lacks availableCapabilities — the validator throws a
TypeError there (undefined.includes), refuting the totality claim at the
very instance the claim names. -/
theorem c6_claim_counterexample :
    LAW_II_CAPABILITY_BOUNDS.validator ctxNoCaps =
      Except.error (EvalError.typeError
        ("Cannot read properties of undefined (reading \x27includes\x27)")) :=
  rfl

/-- C6 (amended): every law predicate other than Law II is total (returns a
result on any context shape and never throws); Law II returns a result
whenever the context carries availableCapabilities or names no truthy
requiredCapability, but throws a TypeError exactly on a context that gets
past the tier check while naming a truthy requiredCapability without an
availableCapabilities field. -/
theorem c6_amended_totality (context : Context) :
    (∀ law ∈ ELEVEN_LAWS, law.lawId ≠ 2 → ∃ res, law.validator context = Except.ok res) ∧
    ((context.availableCapabilities ≠ none ∨ truthyStr context.requiredCapability = false) →
      ∃ res, LAW_II_CAPABILITY_BOUNDS.validator context = Except.ok res) ∧
    (((context.requiredTier.isSome && jsIntLt context.currentTier context.requiredTier) = false ∧
        truthyStr context.requiredCapability = true ∧
        context.availableCapabilities = none) →
      LAW_II_CAPABILITY_BOUNDS.validator context =
        Except.error (EvalError.typeError
          ("Cannot read properties of undefined (reading \x27includes\x27)"))) := by
  refine ⟨?_, ?_, ?_⟩
  · intro law hmem hne
    simp only [ELEVEN_LAWS, List.mem_cons, List.not_mem_nil, or_false] at hmem
    rcases hmem with rfl | rfl | rfl | rfl | rfl | rfl | rfl | rfl | rfl | rfl | rfl
    · exact law1_total context
    · exact absurd rfl hne
    · exact law3_total context
    · exact law4_total context
    · exact law5_total context
    · exact law6_total context
    · exact law7_total context
    · exact law8_total context
    · exact law9_total context
    · exact law10_total context
    · exact law11_total context
  · intro h
    show ∃ res, law2Validator context = Except.ok res
    unfold law2Validator
    rcases htier : (context.requiredTier.isSome &&
        jsIntLt context.currentTier context.requiredTier) with _ | _
    · rcases hts : truthyStr context.requiredCapability with _ | _
      · simp [htier, hts]
      · rcases hc : context.availableCapabilities with _ | caps
        · rcases h with h | h
          · exact absurd hc h
          · rw [hts] at h
            exact absurd h (by simp)
        · simp only [htier, hts, hc, Bool.false_eq_true, if_false, if_true]
          split <;> exact ⟨_, rfl⟩
    · simp [htier]
  · rintro ⟨h1, h2, h3⟩
    show law2Validator context = _
    unfold law2Validator
    simp [h1, h2, h3]

/-- C6 amendment witness: on the concrete context lacking
availableCapabilities, Law I still returns a result while Law II throws. -/
theorem c6_amended_witness :
    (∃ res, LAW_I_RIGHT_TO_CHOOSE.validator ctxNoCaps = Except.ok res) ∧
    LAW_II_CAPABILITY_BOUNDS.validator ctxNoCaps =
      Except.error (EvalError.typeError
        ("Cannot read properties of undefined (reading \x27includes\x27)")) := by
  refine ⟨(c6_amended_totality ctxNoCaps).1 LAW_I_RIGHT_TO_CHOOSE ?_ (by decide),
    (c6_amended_totality ctxNoCaps).2.2 ⟨by decide, by decide, by decide⟩⟩
  unfold ELEVEN_LAWS
  exact List.mem_cons_self _ _

/-- C7: revokeCredential stamps the credential revoked (revokedAt, revokedBy,
reason), always preserves the signature, archives the signature exactly when
no network transition is allowed, and records the peer transition target
pending approval exactly when one is allowed. -/
theorem c7_revocation_fields (mgr : Manager) (credential : SignatureBackedCredential)
    (reason : String) (allowNetworkTransition : Bool) (now : Nat) (rand : String) :
    (revokeCredential mgr credential reason allowNetworkTransition now rand).1.status =
      CredStatus.revoked ∧
    (revokeCredential mgr credential reason allowNetworkTransition now rand).1.revokedAt =
      some now ∧
    (revokeCredential mgr credential reason allowNetworkTransition now rand).1.revokedBy =
      some mgr.gatekeeperId ∧
    (revokeCredential mgr credential reason allowNetworkTransition now rand).1.revocationReason =
      some reason ∧
    (revokeCredential mgr credential reason allowNetworkTransition now rand).2.preserveSignature =
      true ∧
    (revokeCredential mgr credential reason allowNetworkTransition now rand).2.signatureStatus =
      (if allowNetworkTransition then ("active") else ("archived")) ∧
    (revokeCredential mgr credential reason allowNetworkTransition now rand).2.transitionToNodeType =
      (if allowNetworkTransition then some NodeType.peer else none) ∧
    (revokeCredential mgr credential reason allowNetworkTransition now rand).2.transitionApproved =
      (if allowNetworkTransition then some false else none) :=
  ⟨rfl, rfl, rfl, rfl, rfl, rfl, rfl, rfl⟩

/-- C8: processNetworkTransition approves exactly when the revocation
carries a transition target; on approval it flips transitionApproved to true
and returns the restriction set with noCompanyResourceAccess and
noKnowledgeCentreAccess (and peerOnlyAccess) all true, and on a revocation
without a target it returns approved = false with no restrictions. -/
theorem c8_transition_gate (mgr : Manager) (request : NetworkTransitionRequest)
    (revocation : Revocation) (now : Nat) :
    (processNetworkTransition mgr request revocation now).2.approved =
      revocation.transitionToNodeType.isSome ∧
    (processNetworkTransition mgr request revocation now).1.transitionApproved =
      (if revocation.transitionToNodeType.isSome then some true
       else revocation.transitionApproved) ∧
    (processNetworkTransition mgr request revocation now).2.restrictions =
      (if revocation.transitionToNodeType.isSome
       then some { noCompanyResourceAccess := true, noKnowledgeCentreAccess := true,
                   peerOnlyAccess := true }
       else none) := by
  rcases h : revocation.transitionToNodeType with _ | t <;>
    simp [processNetworkTransition, h]

/-- C9 (code bug): processing the same peer-enabled revocation twice
allocates two different peer identities — the generated gatekeeper id embeds
Date.now(), so the two calls (at times 1000 and 2000) return distinct ids,
and the second call happily re-approves: there is no double-approval
guard. -/
theorem c9_double_transition_two_identities :
    (processNetworkTransition mgr0 reqC9 revC9 1000).1.transitionApproved = some true ∧
    (processNetworkTransition mgr0 reqC9
      (processNetworkTransition mgr0 reqC9 revC9 1000).1 2000).2.approved = true ∧
    (processNetworkTransition mgr0 reqC9 revC9 1000).2.newGatekeeperId =
      some ("gk_peer_p_1000") ∧
    (processNetworkTransition mgr0 reqC9
      (processNetworkTransition mgr0 reqC9 revC9 1000).1 2000).2.newGatekeeperId =
      some ("gk_peer_p_2000") :=
  ⟨rfl, rfl, rfl, rfl⟩

/-- C10: every credential produced by issueCredential is an employment
credential from an employer institution whose signature snapshot was taken
for the employment reason, regardless of the request. -/
theorem c10_issuance_always_employment (mgr : Manager)
    (request : CredentialIssuanceRequest) (now : Nat) (rand : String) :
    (issueCredential mgr request now rand).credentialType = "employment" ∧
    (issueCredential mgr request now rand).institutionType = "employer" ∧
    (issueCredential mgr request now rand).aiSignature.snapshotReason = "employment" :=
  ⟨rfl, rfl, rfl⟩
